import Mathlib

/-!
Verification development for the PDF-to-JSON converter (`main.py`,
class `PDFToJSONConverter`).

The pipeline is shallowly embedded: strings are Lean `String`s (lists of
characters, as Python strings are sequences of code points), the regular
expressions of `self.filter_patterns` are embedded as executable predicates
on `List Char`, and the fallible parts (native extraction raising, the OCR
document failing to open, a single page failing) are modelled with
`Except`/`Option` values carried by an abstract document record.

Character classes follow Python's `re` on the ASCII range, which is the
range the pipeline's pattern literals and the statements below use:
`\s` is [ \t\n\r\f\v], `\d` is [0-9], `\w` is [A-Za-z0-9_], `.` is any
character other than newline.  All patterns are compiled with
`re.IGNORECASE` and used through `pattern.match`; since every pattern ends
in `$`, a successful `match` pins down the whole line (with Python's quirk
that `$` also matches just before one trailing newline, modelled by
`dotStarDollar`).
-/

/-- Python regex class `\s` (ASCII range): space, tab, newline, carriage
return, form feed, vertical tab. -/
def pyWs (c : Char) : Bool :=
  c == ' ' || c == '\t' || c == '\n' || c == '\r' || c == '\x0c' || c == '\x0b'

/-- Python regex class `\d` (ASCII range). -/
def pyDigit (c : Char) : Bool :=
  '0' ≤ c && c ≤ '9'

/-- Python regex class `\w` (ASCII range). -/
def pyWord (c : Char) : Bool :=
  ('a' ≤ c && c ≤ 'z') || ('A' ≤ c && c ≤ 'Z') || pyDigit c || c == '_'

/-- Tail test for a pattern ending in `.*$`: `.` never crosses a newline,
and Python's `$` also matches just before a single trailing newline. -/
def dotStarDollar (l : List Char) : Bool :=
  match l.getLast? with
  | some c =>
      if c == '\n' then l.dropLast.all (fun x => x != '\n')
      else l.all (fun x => x != '\n')
  | none => true

/-- Strip a literal pattern prefix case-insensitively (re.IGNORECASE on
ASCII letters), returning the remaining input. -/
def stripPrefixCI : List Char → List Char → Option (List Char)
  | [], l => some l
  | _ :: _, [] => none
  | p :: ps, c :: cs => if p.toLower == c.toLower then stripPrefixCI ps cs else none

/-- Pattern 1 and 2 of `filter_patterns`, `^\s*•.*$` and `^\s*●.*$`
(bullet points), parameterised by the bullet glyph. -/
def bulletPat (glyph : Char) (l : List Char) : Bool :=
  match l.dropWhile pyWs with
  | c :: rest => c == glyph && dotStarDollar rest
  | [] => false

/-- Patterns 3 and 4 of `filter_patterns`, `^\s*\[.*\]\s*$` and
`^\s*<.*>\s*$` (bracketed / angle-bracketed lines).  `.*` is greedy over
non-newline characters, so the pattern matches exactly when, after leading
whitespace, the line opens with the bracket, the last non-whitespace
character is the closing bracket, and everything between is newline-free. -/
def bracketPat (openC closeC : Char) (l : List Char) : Bool :=
  match l.dropWhile pyWs with
  | c :: rest =>
      c == openC &&
        (match rest.reverse.dropWhile pyWs with
         | d :: inner => d == closeC && inner.all (fun x => x != '\n')
         | [] => false)
  | [] => false

/-- Pattern 5 of `filter_patterns`, `^\s*Page\s*\d+\s*$` (page numbers). -/
def pagePat (l : List Char) : Bool :=
  match stripPrefixCI "page".data (l.dropWhile pyWs) with
  | some r =>
      let r1 := r.dropWhile pyWs
      !(r1.takeWhile pyDigit).isEmpty && (r1.dropWhile pyDigit).all pyWs
  | none => false

/-- Pattern 6 of `filter_patterns`, `^\s*\d+\s*$` (lone numbers). -/
def numberPat (l : List Char) : Bool :=
  let l1 := l.dropWhile pyWs
  !(l1.takeWhile pyDigit).isEmpty && (l1.dropWhile pyDigit).all pyWs

/-- Shared tail of the caption patterns: `\s*\d+[\.\:]?.*$`.  Because `.`
also matches `.`/`:` and digits, the optional punctuation and any shorter
choice of `\d+` are absorbed by `.*`, so the test is: at least one digit
after the whitespace, then any newline-free remainder. -/
def captionTail (r : List Char) : Bool :=
  !((r.dropWhile pyWs).takeWhile pyDigit).isEmpty &&
    dotStarDollar ((r.dropWhile pyWs).dropWhile pyDigit)

/-- Pattern 7 of `filter_patterns`, `^Figure\s*\d+[\.\:]?.*$` (figure
captions).  Note the source regex allows no leading whitespace here. -/
def figurePat (l : List Char) : Bool :=
  match stripPrefixCI "figure".data l with
  | some r => captionTail r
  | none => false

/-- Pattern 8 of `filter_patterns`, `^\s*Table\s*\d+[\.\:]?.*$` (table
captions). -/
def tablePat (l : List Char) : Bool :=
  match stripPrefixCI "table".data (l.dropWhile pyWs) with
  | some r => captionTail r
  | none => false

/-- Pattern 9 of `filter_patterns`, `^[.\s]+$` (lines of only dots and
whitespace). -/
def dotsPat (l : List Char) : Bool :=
  !l.isEmpty && l.all (fun c => c == '.' || pyWs c)

/-- Greedy consumption of `(\.\d+)*` (the dotted-numbering extension of a
TOC entry), with a fuel argument for structural recursion; every step
consumes at least one character, so fuel equal to the input length is
always sufficient.  Deterministic: stopping early leaves a `.` where the
following `\s+` would have to match, so the greedy parse is the only
viable one. -/
def consumeDotDigitsAux : Nat → List Char → List Char
  | 0, l => l
  | _ + 1, [] => []
  | fuel + 1, c :: rest =>
      if c == '.' then
        if (rest.takeWhile pyDigit).isEmpty then c :: rest
        else consumeDotDigitsAux fuel (rest.dropWhile pyDigit)
      else c :: rest

/-- Greedy consumption of `(\.\d+)*`, fuelled by the input length. -/
def consumeDotDigits (l : List Char) : List Char :=
  consumeDotDigitsAux l.length l

/-- Tail of the TOC pattern, `\.{3,}.*\d+\s*$`: a run of at least three
dots, then (since `.*` absorbs anything newline-free, dots and digits
included) a remainder whose last non-whitespace character is a digit with
only newline-free characters before it. -/
def tocDotsTail (l : List Char) : Bool :=
  3 ≤ (l.takeWhile (fun c => c == '.')).length &&
    (match (l.dropWhile (fun c => c == '.')).reverse.dropWhile pyWs with
     | c :: rest => pyDigit c && rest.all (fun x => x != '\n')
     | [] => false)

/-- Word section of the TOC pattern, `\w+(\s+\w+){0,4}` followed by
`\.{3,}...`: up to `allowed` further whitespace-separated words after the
current one.  Deterministic: `\w+` and `\s+` runs are maximal because the
follower classes are disjoint, and the loop cannot stop while whitespace
remains because the dots must follow the last word immediately. -/
def tocWordLoop : Nat → List Char → Bool
  | allowed, l =>
      !(l.takeWhile pyWord).isEmpty &&
        (match l.dropWhile pyWord with
         | c :: r =>
             if pyWs c then
               match allowed with
               | 0 => false
               | a + 1 => tocWordLoop a ((c :: r).dropWhile pyWs)
             else tocDotsTail (c :: r)
         | [] => false)

/-- Pattern 10 of `filter_patterns`,
`^\s*\d+(\.\d+)*\s+\w+(\s+\w+){0,4}\.{3,}.*\d+\s*$` (TOC entries). -/
def tocPat (l : List Char) : Bool :=
  let l1 := l.dropWhile pyWs
  !(l1.takeWhile pyDigit).isEmpty &&
    (match consumeDotDigits (l1.dropWhile pyDigit) with
     | c :: r => pyWs c && tocWordLoop 4 ((c :: r).dropWhile pyWs)
     | [] => false)

/-- The ten compiled patterns of `self.filter_patterns`, in source order. -/
def filter_patterns : List (List Char → Bool) :=
  [bulletPat '•', bulletPat '●', bracketPat '[' ']', bracketPat '<' '>',
   pagePat, numberPat, figurePat, tablePat, dotsPat, tocPat]

/-- Embedding of `PDFToJSONConverter.should_filter_line`: true when the
text matches any filter pattern. -/
def should_filter_line (s : String) : Bool :=
  filter_patterns.any (fun p => p s.data)

/-- The whitespace-run collapsing step of `clean_text`,
`re.sub(r'\s+', ' ', text)`: every maximal run of whitespace becomes a
single space.  The flag records whether the previous character was
whitespace (i.e. whether we are inside a run whose replacement space was
already emitted). -/
def collapseWsAux : Bool → List Char → List Char
  | _, [] => []
  | prevWs, c :: cs =>
      if pyWs c then
        if prevWs then collapseWsAux true cs
        else ' ' :: collapseWsAux true cs
      else c :: collapseWsAux false cs

/-- Replace every maximal whitespace run by a single space
(`re.sub(r'\s+', ' ', text)`). -/
def collapseWs (l : List Char) : List Char :=
  collapseWsAux false l

/-- The `str.strip()` step of `clean_text`: drop leading and trailing
whitespace. -/
def stripWs (l : List Char) : List Char :=
  ((l.dropWhile pyWs).reverse.dropWhile pyWs).reverse

/-- Embedding of `PDFToJSONConverter.clean_text`: collapse whitespace runs
to single spaces, then strip. -/
def clean_text (s : String) : String :=
  ⟨stripWs (collapseWs s.data)⟩

/-- The `ocr_mode` configuration value: `'auto'`, `'always'` or `'never'`. -/
inductive OcrMode where
  | auto
  | always
  | never
deriving DecidableEq, Repr

/-- Abstract model of one PDF document as the two extraction backends see
it.  `native` is what the pdfminer loop observes: either the ordered list
of the texts of all `LTTextContainer` elements (pages in order, containers
in order), or an exception raised inside `extract_pages`.  `ocr` is what
the PyMuPDF/pytesseract side observes: `none` when `fitz.open` or
`page_count` raises (aborting the whole OCR attempt), otherwise one entry
per page in order, where a page's entry is `none` when processing that page
raises (page render or OCR engine error, caught and skipped) and otherwise
the raw text pytesseract returns for the page. -/
structure PdfDoc where
  native : Except Unit (List String)
  ocr : Option (List (Option String))

/-- The `' '.join(current_paragraph)` step. -/
def joinSp : List String → String
  | [] => ""
  | [s] => s
  | s :: rest => s ++ " " ++ joinSp rest

/-- Python's `text.split('\n')`: split on every newline, keeping empty
pieces; the empty string yields `[""]`.  Tail builds the current piece in
reverse. -/
def splitNlAux : List Char → List Char → List String
  | acc, [] => [⟨acc.reverse⟩]
  | acc, c :: cs =>
      if c == '\n' then ⟨acc.reverse⟩ :: splitNlAux [] cs
      else splitNlAux (c :: acc) cs

/-- Python's `text.split('\n')`. -/
def splitNl (s : String) : List String :=
  splitNlAux [] s.data

/-- One iteration of the OCR line loop (`for line in lines:` in
`extract_text_with_ocr`): a blank or filtered cleaned line flushes the
accumulator (keeping the joined text only at `min_paragraph_length` or
more), a content line is appended to the accumulator.  The state is
`(paragraphs, current_paragraph)`. -/
def ocr_line_step (minLen : Nat) (st : List String × List String)
    (line : String) : List String × List String :=
  let cleaned := clean_text line
  if cleaned = "" ∨ should_filter_line cleaned = true then
    if st.2 = [] then st
    else
      let ptext := joinSp st.2
      if minLen ≤ ptext.length then (st.1 ++ [ptext], []) else (st.1, [])
  else (st.1, st.2 ++ [cleaned])

/-- The trailing flush of one page's line loop (`# Add the last paragraph
if it exists`). -/
def ocr_flush (minLen : Nat) (st : List String × List String) : List String :=
  if st.2 = [] then st.1
  else
    let ptext := joinSp st.2
    if minLen ≤ ptext.length then st.1 ++ [ptext] else st.1

/-- Processing of a single page inside the OCR loop.  A failing page
(`none`) is caught and skipped, leaving the collected paragraphs as they
were.  A successful page splits its OCR text on newlines, runs the line
loop with a freshly initialised `current_paragraph = []`, and flushes the
accumulator at the end of the page. -/
def ocr_process_page (minLen : Nat) (paragraphs : List String)
    (page : Option String) : List String :=
  match page with
  | none => paragraphs
  | some text =>
      ocr_flush minLen ((splitNl text).foldl (ocr_line_step minLen) (paragraphs, []))

/-- Embedding of `PDFToJSONConverter.extract_text_with_ocr`.  A document
that fails to open (or whose page count cannot be read) yields `none`;
otherwise the pages are processed in order (the Python batch loop visits
`page_num = 1, ..., total_pages` exactly once each, in ascending order;
batching only affects progress output and memory) and the collected
paragraph list is returned. -/
def extract_text_with_ocr (minLen : Nat)
    (doc : Option (List (Option String))) : Option (List String) :=
  match doc with
  | none => none
  | some pages => some (pages.foldl (ocr_process_page minLen) [])

/-- The native (pdfminer) extraction loop of `extract_text_from_pdf`: each
text container's full text is cleaned as one unit and appended as one
paragraph when the cleaned text is nonempty and not filtered.  No length
check and no merge pass are applied on this path. -/
def extract_native (containers : List String) : List String :=
  containers.filterMap (fun text =>
    let cleaned := clean_text text
    if cleaned ≠ "" ∧ should_filter_line cleaned = false then some cleaned else none)

/-- Embedding of `PDFToJSONConverter.extract_text_from_pdf`: mode `always`
goes straight to OCR; otherwise native extraction runs, and in mode `auto`
an empty or short (< 100 characters joined) native result triggers an OCR
attempt whose result replaces the native one only when it is truthy
(non-`None` and non-empty).  A native-extraction exception falls back to
OCR unless the mode is `never`, in which case it yields `none`. -/
def extract_text_from_pdf (minLen : Nat) (mode : OcrMode) (doc : PdfDoc) :
    Option (List String) :=
  if mode = OcrMode.always then extract_text_with_ocr minLen doc.ocr
  else
    match doc.native with
    | Except.ok containers =>
        let paragraphs := extract_native containers
        if mode = OcrMode.auto ∧ (paragraphs = [] ∨ (String.join paragraphs).length < 100) then
          match extract_text_with_ocr minLen doc.ocr with
          | some ocrParas => if ocrParas ≠ [] then some ocrParas else some paragraphs
          | none => some paragraphs
        else some paragraphs
    | Except.error _ =>
        if mode ≠ OcrMode.never then extract_text_with_ocr minLen doc.ocr
        else none

/-- Embedding of `PDFToJSONConverter.convert_pdf_to_json` (the in-memory
result): `None` propagates, and otherwise the paragraphs are keyed
`paragraph1`, `paragraph2`, ... by enumeration order.  The Python dict is
modelled as its insertion-ordered key/value list; the keys are pairwise
distinct, so the association list determines the dict. -/
def convert_pdf_to_json (minLen : Nat) (mode : OcrMode) (doc : PdfDoc) :
    Option (List (String × String)) :=
  match extract_text_from_pdf minLen mode doc with
  | none => none
  | some paragraphs =>
      some (paragraphs.enum.map (fun ip => ("paragraph" ++ toString (ip.1 + 1), ip.2)))

/-- Appending strings appends their character data. -/
theorem strData_append (a b : String) : (a ++ b).data = a.data ++ b.data := by
  cases a; cases b; rfl

/-- A string whose data contains a space character is nonempty; in
particular the space-joined concatenation of two strings is nonempty. -/
theorem append_sp_ne_empty (n c : String) : n ++ " " ++ c ≠ "" := by
  intro h
  have hdata : (n ++ " " ++ c).data = ([] : List Char) := by rw [h]
  rw [strData_append, strData_append] at hdata
  simp at hdata

/-- C1 counterexample: two accepted native candidates, the first 35
characters long (below the merge threshold 50) and ending in a letter, are
emitted as two separate paragraphs; no merged paragraph `A ++ " " ++ B` is
produced. -/
theorem C1_counterexample :
    extract_native ["Introduction to the system overview",
        "This paragraph is long enough to exceed the merge threshold of fifty characters."] =
      ["Introduction to the system overview",
       "This paragraph is long enough to exceed the merge threshold of fifty characters."] ∧
    ("Introduction to the system overview" : String).length < 50 ∧
    ("Introduction to the system overview" : String).data.getLast? = some 'w' ∧
    extract_native ["Introduction to the system overview",
        "This paragraph is long enough to exceed the merge threshold of fifty characters."] ≠
      ["Introduction to the system overview" ++ " " ++
       "This paragraph is long enough to exceed the merge threshold of fifty characters."] := by
  decide

/-- C1 amended: the native (block-mode) path of `extract_text_from_pdf`
has no merge pass at all; any two accepted candidates `[A, B]` are emitted
as the two separate paragraphs `[A, B]`, even when `A` is below the merge
threshold of 50 characters and does not end in `.`, `?` or `!`. -/
theorem C1_amended (A B : String)
    (hAc : clean_text A = A) (hA0 : A ≠ "") (hAf : should_filter_line A = false)
    (hBc : clean_text B = B) (hB0 : B ≠ "") (hBf : should_filter_line B = false)
    (hlen : A.length < 50)
    (hterm : A.data.getLast? ≠ some '.' ∧ A.data.getLast? ≠ some '?' ∧
      A.data.getLast? ≠ some '!') :
    extract_native [A, B] = [A, B] := by
  simp [extract_native, hAc, hBc, hAf, hBf, hA0, hB0]

/-- C1 amended, witness: the amended theorem applied at the concrete
candidate pair of the counterexample. -/
theorem C1_amended_witness :
    extract_native ["Introduction to the system overview",
        "This paragraph is long enough to exceed the merge threshold of fifty characters."] =
      ["Introduction to the system overview",
       "This paragraph is long enough to exceed the merge threshold of fifty characters."] :=
  C1_amended _ _ (by decide) (by decide) (by decide) (by decide) (by decide) (by decide)
    (by decide) (by decide)

/-- C2: the block-mode (native) path never applies `min_paragraph_length`.
The 10-character container text `"Short text"` (below the default minimum
of 20) is accepted into the extraction result and appears in the final
keyed output, contradicting the constructor's documented contract that
`min_paragraph_length` is the "Minimum length of a paragraph to be
included in the output". -/
theorem C2_minlength_bug :
    extract_text_from_pdf 20 OcrMode.never ⟨Except.ok ["Short text"], none⟩ =
      some ["Short text"] ∧
    convert_pdf_to_json 20 OcrMode.never ⟨Except.ok ["Short text"], none⟩ =
      some [("paragraph1", "Short text")] ∧
    ("Short text" : String).length < 20 := by
  decide

/-- C3 counterexample: a native text block containing the noise line
`"Page 1"` together with a content line is cleaned and classified as one
unit, so the noise line's text survives into the emitted paragraph (it is
its prefix) instead of being dropped. -/
theorem C3_counterexample :
    should_filter_line "Page 1" = true ∧
    extract_native ["Page 1\nThe device operates at 12V."] =
      ["Page 1 The device operates at 12V."] ∧
    ("Page 1" : String).data.isPrefixOf
      ("Page 1 The device operates at 12V." : String).data = true := by
  decide

/-- C3 amended: block mode does not classify lines individually.  A block
whose cleaned text is a noise line followed by further content is emitted
as a single paragraph that still contains the noise line's text, provided
the whole cleaned block is not itself filtered. -/
theorem C3_amended (b n c : String)
    (hclean : clean_text b = n ++ " " ++ c)
    (hnoise : should_filter_line n = true)
    (hfilter : should_filter_line (n ++ " " ++ c) = false) :
    extract_native [b] = [n ++ " " ++ c] := by
  simp [extract_native, hclean, hfilter, append_sp_ne_empty n c]

/-- C3 amended, witness: the amended theorem applied at the block of the
counterexample. -/
theorem C3_amended_witness :
    extract_native ["Page 1\nThe device operates at 12V."] =
      ["Page 1" ++ " " ++ "The device operates at 12V."] :=
  C3_amended _ "Page 1" "The device operates at 12V." (by decide) (by decide) (by decide)

/-- C4 counterexample: two adjacent OCR pages, each consisting of a single
content line (both at least 20 characters), yield two separate paragraphs;
the page-boundary lines are not joined into one paragraph, because
`current_paragraph` is initialised and flushed inside each page's loop. -/
theorem C4_counterexample :
    extract_text_with_ocr 20 (some [some "The quick brown fox jumps here",
        some "and continues on the second page"]) =
      some ["The quick brown fox jumps here", "and continues on the second page"] ∧
    extract_text_with_ocr 20 (some [some "The quick brown fox jumps here",
        some "and continues on the second page"]) ≠
      some ["The quick brown fox jumps here" ++ " " ++ "and continues on the second page"] := by
  decide

/-- C4 amended: the OCR paragraph accumulator is per page, not shared
across the document: each page starts with an empty `current_paragraph`
and flushes it at the end of the page, so adjacent content lines on
consecutive pages become separate paragraphs (each kept when it meets the
minimum length), and no paragraph spans a page boundary. -/
theorem C4_amended (minLen : Nat) (p1 p2 : String)
    (h1c : clean_text p1 = p1) (h10 : p1 ≠ "") (h1f : should_filter_line p1 = false)
    (h1l : minLen ≤ p1.length) (h1s : splitNl p1 = [p1])
    (h2c : clean_text p2 = p2) (h20 : p2 ≠ "") (h2f : should_filter_line p2 = false)
    (h2l : minLen ≤ p2.length) (h2s : splitNl p2 = [p2]) :
    extract_text_with_ocr minLen (some [some p1, some p2]) = some [p1, p2] := by
  simp [extract_text_with_ocr, ocr_process_page, h1s, h2s, ocr_line_step, h1c, h2c,
    h1f, h2f, h10, h20, ocr_flush, joinSp, h1l, h2l]

/-- C4 amended, witness: the amended theorem applied at the two concrete
single-line pages of the counterexample. -/
theorem C4_amended_witness :
    extract_text_with_ocr 20 (some [some "The quick brown fox jumps here",
        some "and continues on the second page"]) =
      some ["The quick brown fox jumps here", "and continues on the second page"] :=
  C4_amended 20 _ _ (by decide) (by decide) (by decide) (by decide) (by decide)
    (by decide) (by decide) (by decide) (by decide) (by decide)

/-- Unfolding of `extract_text_from_pdf` in mode `auto` when native
extraction succeeds: the sufficiency test and the truthiness test on the
OCR result, exactly as in the source. -/
theorem extract_auto_ok (minLen : Nat) (containers : List String)
    (ocrdoc : Option (List (Option String))) :
    extract_text_from_pdf minLen OcrMode.auto ⟨Except.ok containers, ocrdoc⟩ =
      (if extract_native containers = [] ∨
          (String.join (extract_native containers)).length < 100 then
        match extract_text_with_ocr minLen ocrdoc with
        | some ocrParas =>
            if ocrParas ≠ [] then some ocrParas else some (extract_native containers)
        | none => some (extract_native containers)
      else some (extract_native containers)) := by
  simp [extract_text_from_pdf]

/-- C5 counterexample: with one accepted native container of total length
80 (< 100, so the fallback triggers) and an OCR attempt that returns the
non-null empty list (a zero-page document), the conversion returns the
native paragraphs, not the non-null OCR result — replacement requires a
truthy (non-empty) OCR result, not merely a non-null one. -/
theorem C5_counterexample :
    extract_text_with_ocr 20 (some ([] : List (Option String))) =
      some ([] : List String) ∧
    some ([] : List String) ≠ (none : Option (List String)) ∧
    (String.join (extract_native
      ["This sentence is exactly eighty characters long for the auto fallback trigger..."])).length
      < 100 ∧
    extract_text_from_pdf 20 OcrMode.auto
        ⟨Except.ok
          ["This sentence is exactly eighty characters long for the auto fallback trigger..."],
         some []⟩ =
      some ["This sentence is exactly eighty characters long for the auto fallback trigger..."] ∧
    some ["This sentence is exactly eighty characters long for the auto fallback trigger..."] ≠
      (some ([] : List String)) := by
  decide

/-- C5 amended: in mode `auto` with native extraction succeeding, an empty
native result or one whose concatenated length is under 100 triggers an
OCR attempt whose result replaces the native one exactly when it is
non-empty (truthy), a null or empty OCR result leaving the native result
in place; at concatenated length 100 or more (and a non-empty native
result) the native result is returned with no influence from OCR. -/
theorem C5_amended (minLen : Nat) (containers : List String)
    (ocrdoc : Option (List (Option String))) :
    ((extract_native containers = [] ∨
        (String.join (extract_native containers)).length < 100) →
      extract_text_from_pdf minLen OcrMode.auto ⟨Except.ok containers, ocrdoc⟩ =
        (match extract_text_with_ocr minLen ocrdoc with
         | some ocrParas =>
             if ocrParas ≠ [] then some ocrParas else some (extract_native containers)
         | none => some (extract_native containers))) ∧
    (¬(extract_native containers = [] ∨
        (String.join (extract_native containers)).length < 100) →
      extract_text_from_pdf minLen OcrMode.auto ⟨Except.ok containers, ocrdoc⟩ =
        some (extract_native containers)) := by
  rw [extract_auto_ok]
  constructor
  · intro h; rw [if_pos h]
  · intro h; rw [if_neg h]

/-- C5 amended, witness: the triggered branch of the amended theorem at the
80-character native result with a non-null empty OCR result. -/
theorem C5_amended_witness :
    extract_text_from_pdf 20 OcrMode.auto
        ⟨Except.ok
          ["This sentence is exactly eighty characters long for the auto fallback trigger..."],
         some []⟩ =
      some ["This sentence is exactly eighty characters long for the auto fallback trigger..."] := by
  have h := (C5_amended 20
    ["This sentence is exactly eighty characters long for the auto fallback trigger..."]
    (some [])).1 (by decide)
  rw [h]; decide

/-- C6: OCR failure isolation.  A page that raises during processing is
skipped and contributes nothing, leaving the paragraphs of every other
page unchanged (the result equals that of the same document without the
failing page); a failure opening the document or reading its page count
makes the whole OCR attempt yield the null result. -/
theorem C6_page_isolation (minLen : Nat) (ps1 ps2 : List (Option String)) :
    extract_text_with_ocr minLen (some (ps1 ++ none :: ps2)) =
      extract_text_with_ocr minLen (some (ps1 ++ ps2)) ∧
    extract_text_with_ocr minLen none = none := by
  refine ⟨?_, rfl⟩
  simp [extract_text_with_ocr, List.foldl_append, ocr_process_page]

/-- C7: in mode `never` the result never depends on what OCR would see
(OCR is not attempted), a native-extraction failure yields the null
result, and the conversion then produces no output. -/
theorem C7_never_mode (minLen : Nat) (nat : Except Unit (List String))
    (ocr1 ocr2 : Option (List (Option String))) :
    extract_text_from_pdf minLen OcrMode.never ⟨nat, ocr1⟩ =
      extract_text_from_pdf minLen OcrMode.never ⟨nat, ocr2⟩ ∧
    extract_text_from_pdf minLen OcrMode.never ⟨Except.error (), ocr1⟩ = none ∧
    convert_pdf_to_json minLen OcrMode.never ⟨Except.error (), ocr1⟩ = none := by
  refine ⟨?_, rfl, rfl⟩
  cases nat <;> simp [extract_text_from_pdf]

/-- C8: the classifier returns noise exactly when the normalized line
matches at least one of the ten fixed patterns (case-insensitive,
anchored), and on the concrete examples: "Page 3", a bullet item, a table
caption and a bracketed line are noise, while a plain sentence is
content. -/
theorem C8_classifier :
    (∀ s : String, should_filter_line s = filter_patterns.any (fun p => p s.data)) ∧
    should_filter_line "Page 3" = true ∧
    should_filter_line "   •  item" = true ∧
    should_filter_line "Table 2: Summary" = true ∧
    should_filter_line "[bracketed]" = true ∧
    should_filter_line "The device operates at 12V." = false :=
  ⟨fun _ => rfl, by decide, by decide, by decide, by decide, by decide⟩

/-- C9: every successful conversion keys its N paragraphs as `paragraph1`
through `paragraphN`, contiguous and 1-based, in extraction order. -/
theorem C9_keys (minLen : Nat) (mode : OcrMode) (doc : PdfDoc) (ps : List String)
    (h : extract_text_from_pdf minLen mode doc = some ps) :
    ∃ out, convert_pdf_to_json minLen mode doc = some out ∧
      out.map Prod.fst = (List.range ps.length).map (fun i => "paragraph" ++ toString (i + 1)) ∧
      out.map Prod.snd = ps := by
  refine ⟨ps.enum.map (fun ip => ("paragraph" ++ toString (ip.1 + 1), ip.2)), ?_, ?_, ?_⟩
  · rw [convert_pdf_to_json, h]
  · rw [List.map_map]
    have hcomp : (Prod.fst ∘ fun ip : Nat × String => ("paragraph" ++ toString (ip.1 + 1), ip.2)) =
        (fun i => "paragraph" ++ toString (i + 1)) ∘ Prod.fst := rfl
    rw [hcomp, ← List.map_map, List.enum_map_fst]
  · rw [List.map_map]
    have hcomp : (Prod.snd ∘ fun ip : Nat × String => ("paragraph" ++ toString (ip.1 + 1), ip.2)) =
        Prod.snd := rfl
    rw [hcomp, List.enum_map_snd]

/-- C9, witness: the key/value shape at a concrete one-paragraph
conversion. -/
theorem C9_keys_witness :
    ∃ out, convert_pdf_to_json 20 OcrMode.never
        ⟨Except.ok ["This is a sufficiently long paragraph."], none⟩ = some out ∧
      out.map Prod.fst =
        (List.range (["This is a sufficiently long paragraph."] : List String).length).map
          (fun i => "paragraph" ++ toString (i + 1)) ∧
      out.map Prod.snd = ["This is a sufficiently long paragraph."] :=
  C9_keys 20 OcrMode.never ⟨Except.ok ["This is a sufficiently long paragraph."], none⟩
    ["This is a sufficiently long paragraph."] (by decide)

/-- Whitespace and digits are disjoint character classes. -/
theorem pyWs_eq_false_of_pyDigit (c : Char) (h : pyDigit c = true) : pyWs c = false := by
  simp only [pyDigit, Bool.and_eq_true, decide_eq_true_eq] at h
  rw [Bool.eq_false_iff]
  intro hw
  simp only [pyWs, Bool.or_eq_true, beq_iff_eq, or_assoc] at hw
  rcases hw with rfl | rfl | rfl | rfl | rfl | rfl <;> exact absurd h (by decide)

/-- Dropping a prefix preserves an `all` invariant. -/
theorem all_dropWhile (p q : Char → Bool) (l : List Char) (h : l.all q = true) :
    (l.dropWhile p).all q = true := by
  rw [List.all_eq_true] at h ⊢
  intro x hx
  exact h x ((List.dropWhile_sublist p).subset hx)

/-- The last element of a list is a member of it. -/
theorem mem_of_getLast?_eq : ∀ (l : List Char) (c : Char), l.getLast? = some c → c ∈ l
  | [], c, h => by simp [List.getLast?] at h
  | [a], c, h => by
      simp [List.getLast?] at h
      simp [h]
  | a :: b :: t, c, h => by
      rw [List.getLast?_cons_cons] at h
      exact List.mem_cons_of_mem a (mem_of_getLast?_eq (b :: t) c h)

/-- A newline-free remainder always satisfies the `.*$` tail test. -/
theorem dotStarDollar_of_all (l : List Char) (h : l.all (fun x => x != '\n') = true) :
    dotStarDollar l = true := by
  cases hl : l.getLast? with
  | none => simp [dotStarDollar, hl]
  | some c =>
      have hmem : c ∈ l := mem_of_getLast?_eq l c hl
      have hc : (c != '\n') = true := List.all_eq_true.1 h c hmem
      have hcc : (c == '\n') = false := by
        cases hbe : c == '\n'
        · rfl
        · rw [bne, hbe] at hc; exact absurd hc (by decide)
      simp [dotStarDollar, hl, hcc, h]

/-- Dropping while a predicate holds skips over a prefix on which it holds
everywhere. -/
theorem dropWhile_append_of_all (p : Char → Bool) :
    ∀ (l r : List Char), l.all p = true → List.dropWhile p (l ++ r) = List.dropWhile p r
  | [], _, _ => rfl
  | c :: t, r, h => by
      simp only [List.all_cons, Bool.and_eq_true] at h
      simp only [List.cons_append, List.dropWhile_cons, h.1, if_true]
      exact dropWhile_append_of_all p t r h.2

/-- The caption tail `\s*\d+[\.\:]?.*$` accepts a space, a nonempty digit
run and any newline-free remainder. -/
theorem captionTail_of_digits (dsl restl : List Char) (hne : dsl ≠ [])
    (hdig : dsl.all pyDigit = true) (hnl : restl.all (fun x => x != '\n') = true) :
    captionTail (' ' :: (dsl ++ restl)) = true := by
  cases dsl with
  | nil => exact absurd rfl hne
  | cons d t =>
      simp only [List.all_cons, Bool.and_eq_true] at hdig
      have hws : pyWs d = false := pyWs_eq_false_of_pyDigit d hdig.1
      have htail : dotStarDollar (List.dropWhile pyDigit (t ++ restl)) = true := by
        rw [dropWhile_append_of_all pyDigit t restl hdig.2]
        exact dotStarDollar_of_all _ (all_dropWhile pyDigit _ restl hnl)
      have hstep : List.dropWhile pyWs (' ' :: (d :: t ++ restl)) = d :: (t ++ restl) := by
        rw [List.dropWhile_cons, if_pos (show pyWs ' ' = true from rfl), List.cons_append,
          List.dropWhile_cons, if_neg (by simp [hws])]
      unfold captionTail
      rw [hstep, List.takeWhile_cons, if_pos hdig.1, List.dropWhile_cons, if_pos hdig.1,
        htail]
      simp

/-- The table pattern accepts `"Table "` followed by digits and an
arbitrary newline-free remainder. -/
theorem tablePat_of_digits (dsl restl : List Char) (hne : dsl ≠ [])
    (hdig : dsl.all pyDigit = true) (hnl : restl.all (fun x => x != '\n') = true) :
    tablePat ("Table ".data ++ (dsl ++ restl)) = true := by
  have hdefeq : tablePat ("Table ".data ++ (dsl ++ restl)) =
      captionTail (' ' :: (dsl ++ restl)) := rfl
  rw [hdefeq]
  exact captionTail_of_digits dsl restl hne hdig hnl

/-- The figure pattern accepts `"Figure "` followed by digits and an
arbitrary newline-free remainder. -/
theorem figurePat_of_digits (dsl restl : List Char) (hne : dsl ≠ [])
    (hdig : dsl.all pyDigit = true) (hnl : restl.all (fun x => x != '\n') = true) :
    figurePat ("Figure ".data ++ (dsl ++ restl)) = true := by
  have hdefeq : figurePat ("Figure ".data ++ (dsl ++ restl)) =
      captionTail (' ' :: (dsl ++ restl)) := rfl
  rw [hdefeq]
  exact captionTail_of_digits dsl restl hne hdig hnl

/-- A line matching the table pattern is classified noise. -/
theorem should_filter_of_tablePat (s : String) (h : tablePat s.data = true) :
    should_filter_line s = true := by
  simp only [should_filter_line, filter_patterns, List.any_cons, List.any_nil,
    Bool.or_eq_true]
  tauto

/-- A line matching the figure pattern is classified noise. -/
theorem should_filter_of_figurePat (s : String) (h : figurePat s.data = true) :
    should_filter_line s = true := by
  simp only [should_filter_line, filter_patterns, List.any_cons, List.any_nil,
    Bool.or_eq_true]
  tauto

/-- C10 counterexample: the caption-like sentence "Table 2 shows the
results of the experiment." is indeed classified noise on its own, yet its
text reaches an output paragraph when it is a line inside a larger native
block, because block mode classifies whole cleaned blocks, not lines. -/
theorem C10_counterexample :
    should_filter_line "Table 2 shows the results of the experiment." = true ∧
    extract_native
        ["The experiment design is described here in detail.\nTable 2 shows the results of the experiment."] =
      ["The experiment design is described here in detail. Table 2 shows the results of the experiment."] ∧
    ("Table 2 shows the results of the experiment." : String).data.isSuffixOf
      ("The experiment design is described here in detail. Table 2 shows the results of the experiment." : String).data
      = true := by
  decide

/-- C10 amended: every normalized line beginning with "Table " or
"Figure " followed by a number is classified noise regardless of the
newline-free text after the number; a line so classified contributes
nothing when it is the unit of classification — a whole native block or an
OCR line — though (per the counterexample) it can still reach output
inside a larger native block. -/
theorem C10_amended (ds rest : String) (hne : ds.data ≠ [])
    (hdig : ds.data.all pyDigit = true)
    (hnl : rest.data.all (fun x => x != '\n') = true) :
    should_filter_line ("Table " ++ ds ++ rest) = true ∧
    should_filter_line ("Figure " ++ ds ++ rest) = true ∧
    (∀ t : String, should_filter_line (clean_text t) = true → extract_native [t] = []) ∧
    extract_native ["Table 2 shows the results of the experiment."] = [] ∧
    extract_text_with_ocr 20
        (some [some "Table 2 shows the results of the experiment."]) = some [] := by
  refine ⟨?_, ?_, ?_, by decide, by decide⟩
  · apply should_filter_of_tablePat
    have hd : ("Table " ++ ds ++ rest).data = "Table ".data ++ (ds.data ++ rest.data) := by
      rw [strData_append, strData_append, List.append_assoc]
    rw [hd]
    exact tablePat_of_digits _ _ hne hdig hnl
  · apply should_filter_of_figurePat
    have hd : ("Figure " ++ ds ++ rest).data = "Figure ".data ++ (ds.data ++ rest.data) := by
      rw [strData_append, strData_append, List.append_assoc]
    rw [hd]
    exact figurePat_of_digits _ _ hne hdig hnl
  · intro t ht
    simp [extract_native, ht]

/-- C10 amended, witness: the amended theorem applied at the concrete
caption sentence split as "Table " + "2" + remainder. -/
theorem C10_amended_witness :
    should_filter_line ("Table " ++ "2" ++ " shows the results of the experiment.") = true ∧
    should_filter_line ("Figure " ++ "2" ++ " shows the results of the experiment.") = true :=
  ⟨(C10_amended "2" " shows the results of the experiment." (by decide) (by decide)
      (by decide)).1,
   (C10_amended "2" " shows the results of the experiment." (by decide) (by decide)
      (by decide)).2.1⟩
